import Mathlib

/-!
Verification of the client-side authentication session manager of a
Next.js marketplace web application.  The session manager lives in the
AuthProvider component (functions isTokenExpired, refreshToken,
getValidToken, login, logout, and a route-guard effect) together with the
HTTP helper module utils/auth.ts (setAuthData, clearAuthData,
authenticatedFetch).

Modelling choices, all read directly off the source:
* localStorage is modelled as a record of three optional string fields,
  one per key used by the code: "token", "refreshToken", "user_id".
  localStorage.getItem returns null or a string; a JavaScript truthiness
  test on such a value is false exactly for null and for the empty
  string, captured by `truthy` below.
* The JWT payload decoding chain used by isTokenExpired, namely
  JSON.parse applied to atob applied to the middle dot-separated segment
  of the token, is environment library code, not repository code; it is
  abstracted as a parameter decodeExp assigning to a token string the
  exp claim of its decoded payload when that chain succeeds, none when
  it throws or yields no numeric exp.  The catch branch of the source
  returns true on any such failure.
* Network behaviour of fetch is a parameter: a refresh request either
  yields a response with a status and a parsed JSON body, or fails at
  the network level (fetch rejects).  Response.ok of the fetch API is
  status between 200 and 299, captured by `respOk`.
* React state setters and router.push are modelled as fields of an
  explicit state record: isAuthenticated, user, and the list of routes
  pushed so far.
* Each operation also reports the number of network requests it issued,
  so that claims of the form "without making any network request" are
  statable.
-/

/-- JavaScript truthiness of a string-or-null value, the shape returned
by localStorage.getItem: null and the empty string are falsy, every
other string is truthy. -/
def truthy : Option String → Bool
  | none => false
  | some s => decide (s ≠ "")

/-- The persisted credential store: the three localStorage keys the code
uses, "token", "refreshToken" and "user_id".  A field holds none when
the key is absent. -/
structure Store where
  token : Option String
  refreshToken : Option String
  user_id : Option String
deriving Repr, DecidableEq

/-- In-memory session state of the AuthProvider component together with
the persisted store and the log of routes passed to router.push. -/
structure AuthState where
  store : Store
  isAuthenticated : Bool
  user : Option String
  nav : List String
deriving Repr, DecidableEq

/-- Parsed JSON body of a refresh response, per the external contract of
the refresh endpoint: a token and an optional replacement refresh
token. -/
structure RefreshResponse where
  token : String
  refreshToken : Option String
deriving Repr, DecidableEq

/-- Outcome of one fetch of the refresh endpoint: a response with a
status code and parsed body, or a network-level failure (fetch or the
body parse rejects, landing in the catch branch). -/
inductive FetchResult where
  | response (status : Nat) (data : RefreshResponse)
  | netError
deriving Repr, DecidableEq

/-- Response.ok of the fetch API: status in the inclusive range 200 to
299. -/
def respOk (status : Nat) : Bool := 200 ≤ status && status < 300

/-- isTokenExpired from the AuthProvider.  The argument falls back to
the stored access token when absent or falsy; an absent or empty
resulting token, or a failing decode, yields true; otherwise the exp
claim is compared against current time plus a 300 second buffer. -/
def isTokenExpired (decodeExp : String → Option Int) (st : Store)
    (now : Int) (tok : Option String) : Bool :=
  let tokenToCheck : Option String :=
    match tok with
    | some t => if t = "" then st.token else some t
    | none => st.token
  match tokenToCheck with
  | none => true
  | some t =>
    if t = "" then true
    else
      match decodeExp t with
      | none => true
      | some e => decide (e < now + 300)

/-- logout from the AuthProvider: removes the three localStorage keys,
sets isAuthenticated false and user null, and pushes the login route. -/
def logout (s : AuthState) : AuthState :=
  { store := { token := none, refreshToken := none, user_id := none }
    isAuthenticated := false
    user := none
    nav := s.nav ++ ["/login"] }

/-- Result of an operation of the session manager: the state afterwards,
the value returned to the caller, and how many network requests were
issued. -/
structure OpResult where
  state : AuthState
  ret : Option String
  requests : Nat
deriving Repr, DecidableEq

/-- refreshToken from the AuthProvider.  With no (truthy) stored refresh
token it returns null with no side effect.  Otherwise it posts the
refresh token to the refresh endpoint: on an ok response it stores the
returned token, stores the returned refresh token when that is truthy,
and returns the new token; on a non-ok response it calls logout and
returns null; when fetch rejects it returns null leaving state
untouched. -/
def refreshToken (net : String → FetchResult) (s : AuthState) : OpResult :=
  match s.store.refreshToken with
  | none => ⟨s, none, 0⟩
  | some rt =>
    if rt = "" then ⟨s, none, 0⟩
    else
      match net rt with
      | .netError => ⟨s, none, 1⟩
      | .response status data =>
        if respOk status then
          let st1 := { s.store with token := some data.token }
          let st2 :=
            if truthy data.refreshToken then
              { st1 with refreshToken := data.refreshToken }
            else st1
          ⟨{ s with store := st2 }, some data.token, 1⟩
        else
          ⟨logout s, none, 1⟩

/-- getValidToken from the AuthProvider.  A falsy stored token yields
null immediately; a stored token that is not expired is returned as is;
an expired one delegates to refreshToken, returning its token when that
is truthy and null otherwise. -/
def getValidToken (decodeExp : String → Option Int)
    (net : String → FetchResult) (now : Int) (s : AuthState) : OpResult :=
  match s.store.token with
  | none => ⟨s, none, 0⟩
  | some t =>
    if t = "" then ⟨s, none, 0⟩
    else if isTokenExpired decodeExp s.store now (some t) then
      let r := refreshToken net s
      if truthy r.ret then ⟨r.state, r.ret, r.requests⟩
      else ⟨r.state, none, r.requests⟩
    else ⟨s, some t, 0⟩

/-- login from the AuthProvider: stores the token and user id, stores
the refresh token only when the argument is truthy, and sets the session
authenticated with the given user. -/
def login (token userId : String) (refreshTokenValue : Option String)
    (s : AuthState) : AuthState :=
  let st1 := { s.store with token := some token, user_id := some userId }
  let st2 :=
    if truthy refreshTokenValue then
      { st1 with refreshToken := refreshTokenValue }
    else st1
  { s with store := st2, isAuthenticated := true, user := some userId }

/-- PUBLIC_ROUTES of the AuthProvider: the routes reachable without a
session. -/
def PUBLIC_ROUTES : List String := ["/login", "/register", "/verify"]

/-- Body of the route-protection effect of the AuthProvider, run on
every change of isAuthenticated, isLoading or pathname: once loading is
over, an unauthenticated session on a non-public route is redirected to
the login route, and an authenticated session on a public route is
redirected to the home route.  The result is the route pushed, none when
no redirect happens. -/
def routeGuard (isLoading isAuthenticated : Bool) (pathname : String) :
    Option String :=
  if isLoading then none
  else
    let isPublicRoute := PUBLIC_ROUTES.contains pathname
    if !isAuthenticated && !isPublicRoute then some "/login"
    else if isAuthenticated && isPublicRoute then some "/"
    else none

/-- setAuthData from utils/auth.ts: writes the token and user id keys. -/
def setAuthData (token userId : String) (st : Store) : Store :=
  { st with token := some token, user_id := some userId }

/-- clearAuthData from utils/auth.ts: removes the token and user id
keys.  Note that it does not touch the refreshToken key. -/
def clearAuthData (st : Store) : Store :=
  { st with token := none, user_id := none }

/-- Failure modes of authenticatedFetch: the throw on a missing token,
a rejected fetch propagating out, and the throw after a 401. -/
inductive AFError where
  | noToken
  | networkFailure
  | authExpired
deriving Repr, DecidableEq

/-- Outcome of the single fetch inside authenticatedFetch: a response
with some status, or a rejection. -/
inductive HttpOutcome where
  | got (status : Nat)
  | failed
deriving Repr, DecidableEq

/-- Result of authenticatedFetch: the store afterwards, either the
returned response status or the error thrown, the number of requests
issued, and the redirect performed via window.location, if any. -/
structure AFResult where
  store : Store
  result : Except AFError Nat
  requests : Nat
  redirect : Option String
deriving Repr

/-- authenticatedFetch from utils/auth.ts: throws before any request
when no token is stored; otherwise performs the request, and on a 401
response clears the auth data, redirects to the login page and throws;
any other response is returned. -/
def authenticatedFetch (net : HttpOutcome) (st : Store) : AFResult :=
  match st.token with
  | none => ⟨st, .error .noToken, 0, none⟩
  | some t =>
    if t = "" then ⟨st, .error .noToken, 0, none⟩
    else
      match net with
      | .failed => ⟨st, .error .networkFailure, 1, none⟩
      | .got status =>
        if status = 401 then
          ⟨clearAuthData st, .error .authExpired, 1, some "/login"⟩
        else
          ⟨st, .ok status, 1, none⟩

/-! ## Fixtures for concrete evaluation -/

/-- Empty store: no credential key is present. -/
def store0 : Store := ⟨none, none, none⟩

/-- Fresh unauthenticated state over the empty store. -/
def state0 : AuthState := ⟨store0, false, none, []⟩

/-- Store holding an access token named old, a refresh token and a user
id. -/
def storeR : Store := ⟨some "old", some "r1", some "u1"⟩

/-- Authenticated state over storeR. -/
def stateR : AuthState := ⟨storeR, true, some "u1", []⟩

/-- Store with all three credential fields present. -/
def storeFull : Store := ⟨some "t1", some "r1", some "u1"⟩

/-- Decode fixture: the token tokA decodes to exp 1300, exactly 300
seconds after the fixture time 1000; every other string fails to
decode. -/
def dex0 : String → Option Int := fun t => if t = "tokA" then some 1300 else none

/-- Decode fixture with one token far in the future and one in the past
relative to the fixture time 1000. -/
def dex1 : String → Option Int :=
  fun t =>
    if t = "fresh" then some 2000
    else if t = "stale" then some 900
    else none

/-- Decode fixture where the stored token old of storeR has exp 100. -/
def dexOld : String → Option Int := fun t => if t = "old" then some 100 else none

/-- Network fixture answering every refresh request with 200 and an
empty-string token. -/
def netEmptyTok : String → FetchResult := fun _ => .response 200 ⟨"", none⟩

/-- Network fixture answering every refresh request with 200 and token
T2, no replacement refresh token. -/
def netT2 : String → FetchResult := fun _ => .response 200 ⟨"T2", none⟩

/-- Network fixture rejecting every refresh request with status 401. -/
def net401 : String → FetchResult := fun _ => .response 401 ⟨"x", none⟩

/-- Network fixture where every fetch fails at the network level. -/
def netDown : String → FetchResult := fun _ => .netError

/-! ## Helper lemmas -/

/-- The store after login: token and user id are overwritten, the
refresh token is overwritten only by a truthy argument. -/
lemma login_store (t u : String) (r : Option String) (s : AuthState) :
    (login t u r s).store =
      ⟨some t, if truthy r then r else s.store.refreshToken, some u⟩ := by
  simp only [login]
  split <;> rfl

/-! ## C1: expiry detection -/

/-- C1 counterexample: at current time 1000 the token tokA decodes to
exp 1300, which is within 300 seconds of the current time (exactly 300
seconds ahead), yet isTokenExpired returns false, because the source
compares exp with a strict less-than against now + 300; the claim
requires true for every exp within 300 seconds of the current time. -/
theorem C1_counterexample :
    dex0 "tokA" = some 1300 ∧ (1300 : Int) ≤ 1000 + 300 ∧
    isTokenExpired dex0 store0 1000 (some "tokA") = false := by
  refine ⟨rfl, by norm_num, rfl⟩

/-- C1 (amended): for every token whose decoded payload has an exp at
least 300 seconds after the current time, isTokenExpired returns false;
for every token whose exp is strictly less than 300 seconds after the
current time or in the past, for every token that fails to decode, and
for an absent token with no stored token to fall back to, it returns
true; the embedding is a total function, matching the source catch
branch that turns every decode failure into true rather than a throw. -/
theorem C1_isTokenExpired_boundary (decodeExp : String → Option Int)
    (st : Store) (now : Int) :
    (∀ t e, t ≠ "" → decodeExp t = some e → now + 300 ≤ e →
      isTokenExpired decodeExp st now (some t) = false) ∧
    (∀ t e, t ≠ "" → decodeExp t = some e → e < now + 300 →
      isTokenExpired decodeExp st now (some t) = true) ∧
    (∀ t, t ≠ "" → decodeExp t = none →
      isTokenExpired decodeExp st now (some t) = true) ∧
    (st.token = none → isTokenExpired decodeExp st now none = true) := by
  refine ⟨?_, ?_, ?_, ?_⟩
  · intro t e ht hd he
    simp [isTokenExpired, ht, hd]
    omega
  · intro t e ht hd he
    simp [isTokenExpired, ht, hd]
    omega
  · intro t ht hd
    simp [isTokenExpired, ht, hd]
  · intro h
    simp [isTokenExpired, h]

/-- C1 witness: the amended statement evaluated on the dex1 fixture at
time 1000, covering a token 1000 seconds ahead, one 100 seconds in the
past, an unparseable one, and an absent one. -/
theorem C1_witness :
    isTokenExpired dex1 store0 1000 (some "fresh") = false ∧
    isTokenExpired dex1 store0 1000 (some "stale") = true ∧
    isTokenExpired dex1 store0 1000 (some "junk") = true ∧
    isTokenExpired dex1 store0 1000 none = true :=
  ⟨(C1_isTokenExpired_boundary dex1 store0 1000).1 "fresh" 2000
      (by decide) rfl (by norm_num),
   (C1_isTokenExpired_boundary dex1 store0 1000).2.1 "stale" 900
      (by decide) rfl (by norm_num),
   (C1_isTokenExpired_boundary dex1 store0 1000).2.2.1 "junk"
      (by decide) rfl,
   (C1_isTokenExpired_boundary dex1 store0 1000).2.2.2 rfl⟩

/-! ## C2: getValidToken -/

/-- C2 counterexample: with the stored token expired and the refresh
endpoint answering 200 with an empty-string token, refreshToken produces
that empty string, but getValidToken returns an absent result instead of
what refreshToken produced, because the source tests the new token for
truthiness before returning it. -/
theorem C2_counterexample :
    (refreshToken netEmptyTok stateR).ret = some "" ∧
    (getValidToken dexOld netEmptyTok 1000 stateR).ret = none := by
  exact ⟨rfl, rfl⟩

/-- C2 (amended): getValidToken returns an absent result with no network
request when the stored access token is absent; returns the stored token
unchanged with no request when it is present and not expired per
isTokenExpired; and when it is expired, adopts the resulting state and
request count of refreshToken and returns the token refreshToken
produced when that token is truthy (present and non-empty), an absent
result otherwise. -/
theorem C2_getValidToken_cases (decodeExp : String → Option Int)
    (net : String → FetchResult) (now : Int) (s : AuthState) :
    (truthy s.store.token = false →
      getValidToken decodeExp net now s = ⟨s, none, 0⟩) ∧
    (∀ t, s.store.token = some t → t ≠ "" →
      isTokenExpired decodeExp s.store now (some t) = false →
      getValidToken decodeExp net now s = ⟨s, some t, 0⟩) ∧
    (∀ t, s.store.token = some t → t ≠ "" →
      isTokenExpired decodeExp s.store now (some t) = true →
      getValidToken decodeExp net now s =
        ⟨(refreshToken net s).state,
         if truthy (refreshToken net s).ret then (refreshToken net s).ret
         else none,
         (refreshToken net s).requests⟩) := by
  refine ⟨?_, ?_, ?_⟩
  · intro h
    match hst : s.store.token with
    | none => simp [getValidToken, hst]
    | some t =>
      rw [hst] at h
      simp [truthy] at h
      simp [getValidToken, hst, h]
  · intro t hst ht hexp
    simp [getValidToken, hst, ht, hexp]
  · intro t hst ht hexp
    simp only [getValidToken, hst]
    rw [if_neg ht, if_pos hexp]
    split <;> simp

/-- C2 witness: the amended statement evaluated on the expired stateR
fixture against the netT2 endpoint, and on the empty state0 fixture. -/
theorem C2_witness :
    getValidToken dexOld netT2 1000 stateR =
      ⟨(refreshToken netT2 stateR).state,
       if truthy (refreshToken netT2 stateR).ret
       then (refreshToken netT2 stateR).ret else none,
       (refreshToken netT2 stateR).requests⟩ ∧
    getValidToken dexOld netT2 1000 state0 = ⟨state0, none, 0⟩ :=
  ⟨(C2_getValidToken_cases dexOld netT2 1000 stateR).2.2 "old" rfl
      (by decide) (by decide),
   (C2_getValidToken_cases dexOld netT2 1000 state0).1 rfl⟩

/-! ## C3: rejected refresh is terminal -/

/-- C3: when a truthy refresh token is stored and the refresh endpoint
answers with a non-2xx status, refreshToken performs exactly one request
(no retry), invokes logout so that the session becomes unauthenticated
with all three persisted fields cleared and a redirect to the login
route pushed, and returns an absent result. -/
theorem C3_refresh_rejected (net : String → FetchResult) (s : AuthState)
    (rt : String) (status : Nat) (data : RefreshResponse)
    (hrt : s.store.refreshToken = some rt) (hne : rt ≠ "")
    (hnet : net rt = .response status data) (hbad : respOk status = false) :
    refreshToken net s =
      ⟨⟨⟨none, none, none⟩, false, none, s.nav ++ ["/login"]⟩, none, 1⟩ := by
  simp [refreshToken, hrt, hne, hnet, hbad, logout]

/-- C3 witness: the statement evaluated on the stateR fixture against an
endpoint answering 401. -/
theorem C3_witness :
    refreshToken net401 stateR =
      ⟨⟨⟨none, none, none⟩, false, none, ["/login"]⟩, none, 1⟩ :=
  C3_refresh_rejected net401 stateR "r1" 401 ⟨"x", none⟩ rfl (by decide)
    rfl (by decide)

/-! ## C4: non-terminal refresh failures -/

/-- C4: refreshToken changes nothing and returns an absent result in
both non-terminal failures: with no truthy stored refresh token it makes
no network request at all, and on a network-level failure it leaves the
whole state (store, session, navigation) untouched after the one failed
request, triggering no logout. -/
theorem C4_refresh_nonterminal (net : String → FetchResult)
    (s : AuthState) :
    (truthy s.store.refreshToken = false →
      refreshToken net s = ⟨s, none, 0⟩) ∧
    (∀ rt, s.store.refreshToken = some rt → rt ≠ "" → net rt = .netError →
      refreshToken net s = ⟨s, none, 1⟩) := by
  constructor
  · intro h
    match hrt : s.store.refreshToken with
    | none => simp [refreshToken, hrt]
    | some rt =>
      rw [hrt] at h
      simp [truthy] at h
      simp [refreshToken, hrt, h]
  · intro rt hrt hne hnet
    simp [refreshToken, hrt, hne, hnet]

/-- C4 witness: the statement evaluated on the empty state0 fixture and
on the stateR fixture against a failing network. -/
theorem C4_witness :
    refreshToken netDown state0 = ⟨state0, none, 0⟩ ∧
    refreshToken netDown stateR = ⟨stateR, none, 1⟩ :=
  ⟨(C4_refresh_nonterminal netDown state0).1 rfl,
   (C4_refresh_nonterminal netDown stateR).2 "r1" rfl (by decide) rfl⟩

/-! ## C5: successful refresh -/

/-- C5: on a 2xx refresh response the stored access token is overwritten
with the token of the response, the stored refresh token is overwritten
only when the response supplies a truthy replacement and is retained
otherwise, and the new access token is returned; consequently, in the
scenario of a stored token with exp ten seconds in the past, a stored
refresh token, and a 200 response carrying token T2 and no replacement,
getValidToken returns T2 and the store afterwards holds T2 together with
the original refresh token. -/
theorem C5_refresh_success (net : String → FetchResult) (s : AuthState) :
    (∀ rt status data, s.store.refreshToken = some rt → rt ≠ "" →
      net rt = .response status data → respOk status = true →
      refreshToken net s =
        ⟨⟨⟨some data.token,
           if truthy data.refreshToken then data.refreshToken
           else s.store.refreshToken,
           s.store.user_id⟩, s.isAuthenticated, s.user, s.nav⟩,
         some data.token, 1⟩) ∧
    (∀ decodeExp now t rt, s.store.token = some t → t ≠ "" →
      decodeExp t = some (now - 10) →
      s.store.refreshToken = some rt → rt ≠ "" →
      net rt = .response 200 ⟨"T2", none⟩ →
      getValidToken decodeExp net now s =
        ⟨⟨⟨some "T2", some rt, s.store.user_id⟩,
          s.isAuthenticated, s.user, s.nav⟩, some "T2", 1⟩) := by
  constructor
  · intro rt status data hrt hne hnet hok
    simp only [refreshToken, hrt]
    rw [if_neg hne, hnet]
    simp only [hok, if_pos]
    split <;> rfl
  · intro decodeExp now t rt hst ht hd hrt hrne hnet
    have hexp : isTokenExpired decodeExp s.store now (some t) = true := by
      simp [isTokenExpired, ht, hd]
      omega
    have href : refreshToken net s =
        ⟨⟨⟨some "T2", some rt, s.store.user_id⟩,
          s.isAuthenticated, s.user, s.nav⟩, some "T2", 1⟩ := by
      simp only [refreshToken, hrt]
      rw [if_neg hrne, hnet]
      simp [respOk, truthy, hrt]
    simp only [getValidToken, hst]
    rw [if_neg ht, if_pos hexp, href]
    simp [truthy]

/-- C5 witness: both parts evaluated on the stateR fixture against the
netT2 endpoint, at current time 110 so that the stored exp 100 lies ten
seconds in the past. -/
theorem C5_witness :
    refreshToken netT2 stateR =
      ⟨⟨⟨some "T2", some "r1", some "u1"⟩, true, some "u1", []⟩,
       some "T2", 1⟩ ∧
    getValidToken dexOld netT2 110 stateR =
      ⟨⟨⟨some "T2", some "r1", some "u1"⟩, true, some "u1", []⟩,
       some "T2", 1⟩ :=
  ⟨(C5_refresh_success netT2 stateR).1 "r1" 200 ⟨"T2", none⟩ rfl
      (by decide) rfl (by decide),
   (C5_refresh_success netT2 stateR).2 dexOld 110 "old" "r1" rfl
      (by decide) (by decide) rfl (by decide) rfl⟩

/-! ## C6: logout -/

/-- C6: from every prior state, logout empties the three persisted
credential fields, leaves the session unauthenticated with no user, and
pushes the login route; run again when already logged out it changes
nothing except pushing the login route once more, so it is idempotent
apart from the navigation side effect. -/
theorem C6_logout_clears (s : AuthState) :
    (logout s).store = ⟨none, none, none⟩ ∧
    (logout s).isAuthenticated = false ∧
    (logout s).user = none ∧
    (logout s).nav = s.nav ++ ["/login"] ∧
    (logout (logout s)).store = (logout s).store ∧
    (logout (logout s)).isAuthenticated = (logout s).isAuthenticated ∧
    (logout (logout s)).user = (logout s).user ∧
    (logout (logout s)).nav = (logout s).nav ++ ["/login"] :=
  ⟨rfl, rfl, rfl, rfl, rfl, rfl, rfl, rfl⟩

/-! ## C7: credential fields as a unit -/

/-- C7 counterexample: running authenticatedFetch over a store holding
all three credential fields against a 401 response clears the access
token and the user id but leaves the refresh token behind, so a clearing
operation of the code does remove some credential fields while leaving
another. -/
theorem C7_counterexample :
    (authenticatedFetch (.got 401) storeFull).store.token = none ∧
    (authenticatedFetch (.got 401) storeFull).store.user_id = none ∧
    (authenticatedFetch (.got 401) storeFull).store.refreshToken
      = some "r1" :=
  ⟨rfl, rfl, rfl⟩

/-- C7 (amended): the session manager itself keeps the credential fields
in step: login writes the access token and user id together, logout
clears all three fields at once, and setAuthData likewise writes token
and user id together, so no state arises with a user id present without
a token having been present; the exception is the HTTP helper, whose
clearAuthData, run by authenticatedFetch on a 401 response, clears only
the access token and user id and leaves the refresh token behind. -/
theorem C7_unit_discipline (s : AuthState) (st : Store)
    (t u : String) (r : Option String) :
    ((login t u r s).store.token = some t ∧
     (login t u r s).store.user_id = some u) ∧
    (logout s).store = ⟨none, none, none⟩ ∧
    ((setAuthData t u st).token = some t ∧
     (setAuthData t u st).user_id = some u) ∧
    ((clearAuthData st).token = none ∧
     (clearAuthData st).user_id = none ∧
     (clearAuthData st).refreshToken = st.refreshToken) := by
  refine ⟨⟨?_, ?_⟩, rfl, ⟨rfl, rfl⟩, rfl, rfl, rfl⟩ <;>
    rw [login_store]

/-! ## C8: route guard -/

/-- C8: with loading over, an unauthenticated session on a route outside
the public allow-list is redirected to the login route, and an
authenticated session on a route of the public allow-list is redirected
to the default landing route. -/
theorem C8_routeGuard_redirects (isAuthenticated : Bool)
    (pathname : String) :
    (isAuthenticated = false → PUBLIC_ROUTES.contains pathname = false →
      routeGuard false isAuthenticated pathname = some "/login") ∧
    (isAuthenticated = true → PUBLIC_ROUTES.contains pathname = true →
      routeGuard false isAuthenticated pathname = some "/") := by
  constructor
  · intro h hp
    have hp2 : pathname ∉ PUBLIC_ROUTES := by simpa using hp
    simp [routeGuard, h, hp2]
  · intro h hp
    have hp2 : pathname ∈ PUBLIC_ROUTES := by simpa using hp
    simp [routeGuard, h, hp2]

/-- C8 witness: an unauthenticated session on a protected route is sent
to the login route, and an authenticated session sitting on the login
route is sent to the landing route. -/
theorem C8_witness :
    routeGuard false false "/posts" = some "/login" ∧
    routeGuard false true "/login" = some "/" :=
  ⟨(C8_routeGuard_redirects false "/posts").1 rfl (by decide),
   (C8_routeGuard_redirects true "/login").2 rfl (by decide)⟩

/-! ## C9: login keeps an old refresh token -/

/-- C9: login with an absent or empty refresh token argument overwrites
the stored access token and user id and marks the session authenticated
for the given user, while leaving whatever refresh token was already
stored untouched, so a refresh token of an earlier session survives the
new login. -/
theorem C9_login_keeps_refresh (s : AuthState) (t u : String)
    (r : Option String) (h : truthy r = false) :
    (login t u r s).store.refreshToken = s.store.refreshToken ∧
    (login t u r s).store.token = some t ∧
    (login t u r s).store.user_id = some u ∧
    (login t u r s).isAuthenticated = true ∧
    (login t u r s).user = some u := by
  refine ⟨?_, ?_, ?_, rfl, rfl⟩ <;> simp [login_store, h]

/-- C9 witness: login with no refresh token argument over the stateR
fixture keeps the stored refresh token r1 while overwriting the access
token and user id. -/
theorem C9_witness :
    (login "T9" "U9" none stateR).store.refreshToken = some "r1" ∧
    (login "T9" "U9" none stateR).store.token = some "T9" ∧
    (login "T9" "U9" none stateR).store.user_id = some "U9" ∧
    (login "T9" "U9" none stateR).isAuthenticated = true ∧
    (login "T9" "U9" none stateR).user = some "U9" :=
  C9_login_keeps_refresh stateR "T9" "U9" none rfl

/-! ## C10: authenticatedFetch -/

/-- C10: authenticatedFetch throws without issuing any request when no
access token is stored; and on a 401 response it clears the stored
access token and user id while keeping the refresh token, redirects to
the login page and throws, so a 401 response is never returned to the
caller. -/
theorem C10_authenticatedFetch_guard (st : Store) (net : HttpOutcome) :
    (truthy st.token = false →
      authenticatedFetch net st = ⟨st, .error .noToken, 0, none⟩) ∧
    (∀ t, st.token = some t → t ≠ "" → net = .got 401 →
      authenticatedFetch net st =
        ⟨⟨none, st.refreshToken, none⟩, .error .authExpired, 1,
         some "/login"⟩) := by
  constructor
  · intro h
    match hst : st.token with
    | none => simp [authenticatedFetch, hst]
    | some t =>
      rw [hst] at h
      simp [truthy] at h
      simp [authenticatedFetch, hst, h]
  · intro t hst ht hnet
    simp [authenticatedFetch, hst, ht, hnet, clearAuthData]

/-- C10 witness: on the empty store the call throws with no request, and
on the full store a 401 clears token and user id, keeps the refresh
token, redirects and throws. -/
theorem C10_witness :
    authenticatedFetch (.got 401) store0 =
      ⟨store0, .error .noToken, 0, none⟩ ∧
    authenticatedFetch (.got 401) storeFull =
      ⟨⟨none, some "r1", none⟩, .error .authExpired, 1, some "/login"⟩ :=
  ⟨(C10_authenticatedFetch_guard store0 (.got 401)).1 rfl,
   (C10_authenticatedFetch_guard storeFull (.got 401)).2 "t1" rfl
      (by decide) rfl⟩
